import Mathlib

/-!
Verification of the TrafficFlow ETL star-schema pipeline (src/etl_pipeline.py).

This file gives a shallow embedding of the pure transformation core of the
pipeline and proves the frozen claims about it.

Modelling conventions, matching the pandas code:
* A timestamp is an `Int`, the number of minutes since the epoch
  (1970-01-01 00:00).  A calendar date is an `Int` day number
  (`dateOfTs t = t.fdiv 1440`); converting a date back to a datetime, as
  `pd.to_datetime` does on `datetime.date` values, yields midnight
  (`midnightTs d = d * 1440`).  Month and year of a day number are computed
  by the standard Gregorian civil-from-days algorithm.
* A nullable cell (`NaN` / `NaT`) is an `Option`.
* `Series.unique` / `Series.drop_duplicates` keep the first occurrence of
  each value in the original order: `dedupFirst`.
* `groupby('AccidentID')` sorts the group keys ascending, drops null keys,
  and `.first()` takes, per column, the first non-null value inside each
  group (pandas `GroupBy.first` skips NA): `groupbyAccidentFirst`.
* The two `merge` calls join on keys that are unique on the right side
  (the dimension tables are built by deduplication), so each is a lookup
  (`List.find?`); pandas merges match null keys with null keys, which the
  `Option`-valued lookup keys reproduce.
* `random.randint(a, b)` is modelled by `randint a b r` where `r` is drawn
  from an arbitrary stream `σ : Nat → Nat` of the random source's outcomes;
  draws are consumed left to right exactly where the code calls `randint`.
* Python exceptions that the transformation itself can raise
  (`iloc` out of bounds, `idxmin` on an all-null series) are `Except` errors.
-/

namespace ETL

/-- Failure modes of the embedded transformations: the `EmptyInputError` the
spec postulates for `populate_dim_location`, the `IndexError` that
`matching_conditions.iloc[...]` raises on an out-of-range position, and the
`ValueError` that `Series.idxmin` raises when every entry is null. -/
inductive ETLError where
  | emptyInput
  | indexError
  | valueError
deriving DecidableEq

/-- Gregorian calendar fields `(year, month, day)` of a day number counted
from 1970-01-01 (the civil-from-days algorithm, integer arithmetic only). -/
def civilFromDays (z : Int) : Int × Nat × Nat :=
  let z2 := z + 719468
  let era := z2.fdiv 146097
  let doe := (z2 - era * 146097).toNat
  let yoe := (doe - doe / 1460 + doe / 36524 - doe / 146096) / 365
  let doy := doe - (365 * yoe + yoe / 4 - yoe / 100)
  let mp := (5 * doy + 2) / 153
  let d := doy - (153 * mp + 2) / 5 + 1
  let m := if mp < 10 then mp + 3 else mp - 9
  (if m ≤ 2 then (yoe : Int) + era * 400 + 1 else (yoe : Int) + era * 400, m, d)

/-- Year of a day number, as `Series.dt.year` computes it. -/
def yearOfDay (d : Int) : Int := (civilFromDays d).1

/-- Month of a day number, as `Series.dt.month` computes it. -/
def monthOfDay (d : Int) : Nat := (civilFromDays d).2.1

/-- Calendar date (day number) of a timestamp: `Series.dt.date`. -/
def dateOfTs (t : Int) : Int := t.fdiv 1440

/-- `pd.to_datetime` applied to a `datetime.date`: midnight of that date. -/
def midnightTs (d : Int) : Int := d * 1440

/-- First-occurrence deduplication, keeping the original order: the
behaviour of `Series.unique()` and `Series.drop_duplicates()`. -/
def dedupFirst {α : Type} [DecidableEq α] : List α → List α
  | [] => []
  | x :: xs => x :: (dedupFirst xs).filter (fun y => y ≠ x)

/-- Index of the first occurrence of `a` in `l` (used to state
"first-appearance order"). -/
def firstIndexOf {α : Type} [DecidableEq α] (l : List α) (a : α) : Nat :=
  l.indexOf a

/-- One row of the Accidents sheet after timestamp conversion.  Every cell
may be null. -/
structure AccidentRow where
  accidentID : Option Nat
  reportedAt : Option Int
  location : Option String
  vehiclesInvolved : Option Int
  severity : Option String
deriving DecidableEq

/-- One row of the Vehicles sheet. -/
structure VehicleRow where
  vehicleID : Option Nat
  vehicleType : Option String
deriving DecidableEq

/-- One row of the RoadConditions sheet after timestamp conversion. -/
structure RoadCondRow where
  conditionID : Option Nat
  location : Option String
  recordedAt : Option Int
  surface : Option String
  visibility : Option String
deriving DecidableEq

/-- A row of `Dim_Location`. -/
structure DimLocationRow where
  locationID : Nat
  locationName : Option String
deriving DecidableEq

/-- A row of `Dim_Vehicle` (nulls already dropped). -/
structure DimVehicleRow where
  vehicleID : Nat
  vehicleType : String
deriving DecidableEq

/-- A row of `Dim_RoadCondition` (nulls already dropped). -/
structure DimRoadConditionRow where
  conditionID : Nat
  surface : String
  visibility : String
deriving DecidableEq

/-- A row of `Dim_Date`.  `date`, `month`, `year`, `time` are null exactly
when the originating `ReportedAt` was `NaT`. -/
structure DimDateRow where
  dateID : Nat
  date : Option Int
  month : Option Nat
  year : Option Int
  time : Option Int
deriving DecidableEq

/-- An accident row after the two left merges with `Dim_Date` and
`Dim_Location` in `populate_fact_accidents`. -/
structure MergedRow where
  accidentID : Option Nat
  reportedAt : Option Int
  location : Option String
  vehiclesInvolved : Option Int
  severity : Option String
  dateID : Option Nat
  locationID : Option Nat
deriving DecidableEq

/-- A row of the frame produced by
`accidents_with_location.groupby('AccidentID').first().reset_index()`. -/
structure GroupedRow where
  accidentID : Nat
  reportedAt : Option Int
  location : Option String
  vehiclesInvolved : Option Int
  severity : Option String
  dateID : Option Nat
  locationID : Option Nat
deriving DecidableEq

/-- A row of `Fact_Accidents`. -/
structure FactRow where
  accidentID : Nat
  dateID : Option Nat
  locationID : Option Nat
  vehicleID : Nat
  roadConditionID : Option Nat
  vehiclesInvolved : Option Int
  severityScore : Nat
deriving DecidableEq

/-- A source cell fed to `pd.to_datetime(..., errors='coerce')`, abstracted
by its parse outcome: `valid t` is a cell pandas parses to the timestamp
`t`; `invalid` is an unparseable or missing cell. -/
inductive RawCell where
  | valid (t : Int)
  | invalid
deriving DecidableEq

/-- `pd.to_datetime(cell, errors='coerce')` on one cell: a parseable cell
becomes its timestamp, anything else becomes `NaT` (`none`). -/
def to_datetime_coerce : RawCell → Option Int
  | RawCell.valid t => some t
  | RawCell.invalid => none

/-- `convert_timestamps` (etl_pipeline.py lines 58-79): converts one column
with `pd.to_datetime(df[column], errors='coerce')`.  The coercion never
raises: the result is always a normal return. -/
def convert_timestamps (col : List RawCell) : Except ETLError (List (Option Int)) :=
  Except.ok (col.map to_datetime_coerce)

/-- `populate_dim_location` (lines 158-184): `accidents_df['Location'].unique()`
keeps the distinct locations in first-appearance order, and surrogate ids
are `range(1, n + 1)`. -/
def populate_dim_location (accidents : List AccidentRow) : List DimLocationRow :=
  (dedupFirst (accidents.map (fun a => a.location))).enum.map
    (fun p => { locationID := p.1 + 1, locationName := p.2 })

/-- `populate_dim_location` viewed through its exception interface: the
Python body contains no emptiness check and raises nothing of its own, so
the call returns normally on every input, the empty batch included. -/
def populate_dim_location_run (accidents : List AccidentRow) :
    Except ETLError (List DimLocationRow) :=
  Except.ok (populate_dim_location accidents)

/-- `populate_dim_vehicle` (lines 186-209): project the two columns and
`dropna()`. -/
def populate_dim_vehicle (vehicles : List VehicleRow) : List DimVehicleRow :=
  vehicles.filterMap (fun v =>
    match v.vehicleID, v.vehicleType with
    | some i, some t => some { vehicleID := i, vehicleType := t }
    | _, _ => none)

/-- `populate_dim_road_condition` (lines 211-234): project the three
columns and `dropna()`. -/
def populate_dim_road_condition (conds : List RoadCondRow) : List DimRoadConditionRow :=
  conds.filterMap (fun c =>
    match c.conditionID, c.surface, c.visibility with
    | some i, some s, some v => some { conditionID := i, surface := s, visibility := v }
    | _, _, _ => none)

/-- `populate_dim_date` (lines 236-269): the distinct calendar dates of
`ReportedAt` in first-appearance order, ids `range(1, n + 1)`;
`Month`/`Year`/`Time` are computed from `pd.to_datetime(unique_dates)`,
i.e. from the dates converted back to (midnight) datetimes. -/
def populate_dim_date (accidents : List AccidentRow) : List DimDateRow :=
  (dedupFirst (accidents.map (fun a => a.reportedAt.map dateOfTs))).enum.map
    (fun p =>
      { dateID := p.1 + 1
        date := p.2
        month := p.2.map monthOfDay
        year := p.2.map yearOfDay
        time := p.2.map midnightTs })

/-- The two left merges of `populate_fact_accidents` (lines 296-315) on one
accident row: `DateID` by `ReportedAt_Date = Date`, `LocationID` by
`Location = LocationName`.  Both right-hand key columns are unique in the
tables the dimension builders produce, so each merge is a first-match
lookup; pandas matches null keys with null keys. -/
def enrich (dimLoc : List DimLocationRow) (dimDate : List DimDateRow)
    (a : AccidentRow) : MergedRow :=
  { accidentID := a.accidentID
    reportedAt := a.reportedAt
    location := a.location
    vehiclesInvolved := a.vehiclesInvolved
    severity := a.severity
    dateID := (dimDate.find? (fun r => r.date = a.reportedAt.map dateOfTs)).map
      (fun r => r.dateID)
    locationID := (dimLoc.find? (fun r => r.locationName = a.location)).map
      (fun r => r.locationID) }

/-- One output row of `groupby('AccidentID').first()` for the key `k`:
per column, the first non-null value among the rows of the group, in the
original row order (pandas `GroupBy.first` skips NA values). -/
def groupFirst (rows : List MergedRow) (k : Nat) : GroupedRow :=
  let g := rows.filter (fun r => r.accidentID = some k)
  { accidentID := k
    reportedAt := (g.filterMap (fun r => r.reportedAt)).head?
    location := (g.filterMap (fun r => r.location)).head?
    vehiclesInvolved := (g.filterMap (fun r => r.vehiclesInvolved)).head?
    severity := (g.filterMap (fun r => r.severity)).head?
    dateID := (g.filterMap (fun r => r.dateID)).head?
    locationID := (g.filterMap (fun r => r.locationID)).head? }

/-- Insert into a sorted list (ascending). -/
def insertSorted (x : Nat) : List Nat → List Nat
  | [] => [x]
  | y :: ys => if x ≤ y then x :: y :: ys else y :: insertSorted x ys

/-- Ascending sort, the order `groupby` uses for its keys (`sort=True`). -/
def sortNat (l : List Nat) : List Nat := l.foldr insertSorted []

/-- `accidents_with_location.groupby('AccidentID').first().reset_index()`
(line 318): null keys are dropped, keys are sorted ascending, and each
group is aggregated column-wise by first non-null value. -/
def groupbyAccidentFirst (rows : List MergedRow) : List GroupedRow :=
  (sortNat (dedupFirst (rows.filterMap (fun r => r.accidentID)))).map (groupFirst rows)

/-- Outcome of the road-condition matching block (lines 337-346). -/
inductive RCResult where
  | picked (cid : Option Nat)
  | fallback
  | err (e : ETLError)
deriving DecidableEq

/-- `Series.idxmin` on a labelled series of nullable values: the label of
the first entry holding the minimal non-null value; `none` when every entry
is null (pandas raises `ValueError` there). -/
def idxminFirst (l : List (Nat × Option Nat)) : Option Nat :=
  match l.filterMap (fun p => p.2.map (fun v => (p.1, v))) with
  | [] => none
  | x :: xs =>
    some ((xs.foldl (fun best p => if p.2 < best.2 then p else best) x).1)

/-- Lines 337-342, exactly as written: filter the road conditions to the
accident's location (`enum` keeps each row's label in the original frame),
take `idxmin` of the absolute time differences — which yields a label of
the ORIGINAL frame — and then index the FILTERED frame positionally with
`iloc` at that label.  When the label is not a valid position of the
filtered frame this raises `IndexError`; lines 343-346: when no row has
the location, fall back to a random id. -/
def chooseRC (conds : List RoadCondRow) (loc : String) (t : Int) : RCResult :=
  let matching := conds.enum.filter (fun p => p.2.location = some loc)
  if matching = [] then RCResult.fallback
  else
    match idxminFirst (matching.map
        (fun p => (p.1, p.2.recordedAt.map (fun rt => (rt - t).natAbs)))) with
    | none => RCResult.err ETLError.valueError
    | some lab =>
      match matching[lab]? with
      | none => RCResult.err ETLError.indexError
      | some p => RCResult.picked p.2.conditionID

/-- `random.randint(lo, hi)` (both bounds inclusive) fed with one raw
outcome `r` of the random source. -/
def randint (lo hi r : Nat) : Nat := lo + r % (hi + 1 - lo)

/-- `severity_map.get(row['Severity'], 1)` with
`severity_map = {'Minor': 1, 'Moderate': 2, 'Severe': 3}` (lines 349-350):
any other or missing value falls through to the default 1. -/
def severityScoreOf (s : Option String) : Nat :=
  if s = some "Minor" then 1
  else if s = some "Moderate" then 2
  else if s = some "Severe" then 3
  else 1

/-- The row loop of `populate_fact_accidents` (lines 321-361) over the
grouped rows, consuming the random stream `σ` left to right: skip rows
with null `ReportedAt` or `Location`; draw `VehicleID = randint(1, 200)`;
match the road condition, drawing `randint(1, 100)` on fallback; map the
severity; emit the fact row.  An exception from the matching block aborts
the whole call. -/
def buildFactRows (σ : Nat → Nat) (conds : List RoadCondRow) :
    List GroupedRow → Except ETLError (List FactRow)
  | [] => Except.ok []
  | g :: gs =>
    match g.reportedAt, g.location with
    | some t, some loc =>
      let vid := randint 1 200 (σ 0)
      match chooseRC conds loc t with
      | RCResult.picked cid =>
        (buildFactRows (fun k => σ (k + 1)) conds gs).map
          (fun rest =>
            { accidentID := g.accidentID
              dateID := g.dateID
              locationID := g.locationID
              vehicleID := vid
              roadConditionID := cid
              vehiclesInvolved := g.vehiclesInvolved
              severityScore := severityScoreOf g.severity } :: rest)
      | RCResult.fallback =>
        (buildFactRows (fun k => σ (k + 2)) conds gs).map
          (fun rest =>
            { accidentID := g.accidentID
              dateID := g.dateID
              locationID := g.locationID
              vehicleID := vid
              roadConditionID := some (randint 1 100 (σ 1))
              vehiclesInvolved := g.vehiclesInvolved
              severityScore := severityScoreOf g.severity } :: rest)
      | RCResult.err e => Except.error e
    | _, _ => buildFactRows σ conds gs

/-- `populate_fact_accidents` (lines 273-369): merge with the two
dimension tables, group by `AccidentID` taking column-wise first non-null
values, then run the row loop. -/
def populate_fact_accidents (accidents : List AccidentRow)
    (dimLoc : List DimLocationRow) (dimDate : List DimDateRow)
    (conds : List RoadCondRow) (σ : Nat → Nat) :
    Except ETLError (List FactRow) :=
  buildFactRows σ conds
    (groupbyAccidentFirst (accidents.map (enrich dimLoc dimDate)))

/-- The tables a pipeline run produces. -/
structure PipelineOut where
  dimLocation : List DimLocationRow
  dimVehicle : List DimVehicleRow
  dimRoadCondition : List DimRoadConditionRow
  dimDate : List DimDateRow
  facts : Except ETLError (List FactRow)

/-- The transformation core of `run_etl_pipeline` (lines 399-444): the four
dimension builders followed by the fact builder, on already
timestamp-converted batches; `σ` is the stream of outcomes of the process
random source, consumed only by the fact builder. -/
def run_etl (vehicles : List VehicleRow) (accidents : List AccidentRow)
    (conds : List RoadCondRow) (σ : Nat → Nat) : PipelineOut :=
  let dimLoc := populate_dim_location accidents
  let dimDate := populate_dim_date accidents
  { dimLocation := dimLoc
    dimVehicle := populate_dim_vehicle vehicles
    dimRoadCondition := populate_dim_road_condition conds
    dimDate := dimDate
    facts := populate_fact_accidents accidents dimLoc dimDate conds σ }

/-- Modelled from the spec (for comparison with `chooseRC` only): "filter
RoadConditionRecord to rows with equal Location; if nonempty, choose the
record whose RecordedAt has the minimum absolute time difference to the
accident's ReportedAt (ties broken by first occurrence in the filtered
set)".  Returns the `ConditionID` of that record, or `none` when there is
no candidate with a non-null `RecordedAt`. -/
def spec_nearest_condition (conds : List RoadCondRow) (loc : String) (t : Int) :
    Option (Option Nat) :=
  let cands := conds.filter (fun c => c.location = some loc)
  match idxminFirst (cands.enum.map
      (fun p => (p.1, p.2.recordedAt.map (fun rt => (rt - t).natAbs)))) with
  | none => none
  | some i => (cands[i]?).map (fun c => c.conditionID)

/-! ### Concrete fixtures used by counterexamples and witnesses -/

/-- All-zero outcomes of the random source. -/
def zeroStream : Nat → Nat := fun _ => 0

/-- Witness batch: a single fully populated accident reported at minute 630
(10:30 on day 0). -/
def wAccs : List AccidentRow :=
  [{ accidentID := some 1, reportedAt := some 630, location := some "X",
     vehiclesInvolved := some 2, severity := some "Minor" }]

/-- The fact row the pipeline emits for `wAccs` with no road conditions
under the all-zero random stream. -/
def wFact : FactRow :=
  { accidentID := 1, dateID := some 1, locationID := some 1, vehicleID := 1,
    roadConditionID := some 1, vehiclesInvolved := some 2, severityScore := 1 }

/-- The single `Dim_Date` row built from `wAccs`: day 0 (1970-01-01), month
1, year 1970, `Time` at midnight. -/
def wDateRow : DimDateRow :=
  { dateID := 1, date := some 0, month := some 1, year := some 1970, time := some 0 }

/-- C1 counterexample batch: two rows with the same `AccidentID`; the first
occurrence has a null `Severity`, the duplicate a non-null one. -/
def dupAccs : List AccidentRow :=
  [{ accidentID := some 1, reportedAt := some 0, location := some "X",
     vehiclesInvolved := some 2, severity := none },
   { accidentID := some 1, reportedAt := some 0, location := some "X",
     vehiclesInvolved := some 5, severity := some "Severe" }]

/-- A single road condition at the counterexample's location, so that the
matching block is deterministic. -/
def dupConds : List RoadCondRow :=
  [{ conditionID := some 7, location := some "X", recordedAt := some 0,
     surface := none, visibility := none }]

/-- C2 failing input: four road conditions; rows 0, 2, 3 are at location
"B" with `RecordedAt` 0, 5 and 100 minutes. -/
def bugConds : List RoadCondRow :=
  [{ conditionID := some 10, location := some "B", recordedAt := some 0,
     surface := none, visibility := none },
   { conditionID := some 99, location := some "A", recordedAt := some 0,
     surface := none, visibility := none },
   { conditionID := some 20, location := some "B", recordedAt := some 5,
     surface := none, visibility := none },
   { conditionID := some 30, location := some "B", recordedAt := some 100,
     surface := none, visibility := none }]

/-- C2 crashing input: the minimal-difference row's original label exceeds
the filtered frame's length. -/
def crashConds : List RoadCondRow :=
  [{ conditionID := some 99, location := some "A", recordedAt := some 0,
     surface := none, visibility := none },
   { conditionID := some 10, location := some "B", recordedAt := some 0,
     surface := none, visibility := none },
   { conditionID := some 20, location := some "B", recordedAt := some 100,
     surface := none, visibility := none }]

/-! ### Helper lemmas about the embedded list operations -/

/-- `dedupFirst` keeps exactly the values of the input. -/
theorem mem_dedupFirst {α : Type} [DecidableEq α] (a : α) (l : List α) :
    a ∈ dedupFirst l ↔ a ∈ l := by
  induction l with
  | nil => simp [dedupFirst]
  | cons x xs ih =>
    by_cases h : a = x
    · subst h; simp [dedupFirst]
    · simp [dedupFirst, List.mem_filter, h, ih]

/-- `dedupFirst` produces no duplicates. -/
theorem nodup_dedupFirst {α : Type} [DecidableEq α] (l : List α) :
    (dedupFirst l).Nodup := by
  induction l with
  | nil => simp [dedupFirst]
  | cons x xs ih =>
    rw [dedupFirst, List.nodup_cons]
    constructor
    · intro hmem
      have := (List.mem_filter.mp hmem).2
      simp at this
    · exact ih.filter _

/-- `dedupFirst` lists values in the order of their first appearance:
first-occurrence indices are strictly increasing along the output. -/
theorem pairwise_indexOf_dedupFirst {α : Type} [DecidableEq α] (l : List α) :
    (dedupFirst l).Pairwise (fun a b => l.indexOf a < l.indexOf b) := by
  induction l with
  | nil => simp [dedupFirst]
  | cons x xs ih =>
    rw [dedupFirst]
    refine List.Pairwise.cons ?_ ?_
    · intro b hb
      have hne : b ≠ x := by
        have := (List.mem_filter.mp hb).2
        simpa using this
      rw [List.indexOf_cons_self, List.indexOf_cons_ne _ (Ne.symm hne)]
      exact Nat.succ_pos _
    · refine List.Pairwise.imp_of_mem ?_ (ih.filter _)
      intro a b ha hb hlt
      have hna : a ≠ x := by
        have := (List.mem_filter.mp ha).2
        simpa using this
      have hnb : b ≠ x := by
        have := (List.mem_filter.mp hb).2
        simpa using this
      rw [List.indexOf_cons_ne _ (Ne.symm hna), List.indexOf_cons_ne _ (Ne.symm hnb)]
      exact Nat.succ_lt_succ hlt

/-- `pairwise_indexOf_dedupFirst` restated through `firstIndexOf`. -/
theorem pairwise_firstIndexOf_dedupFirst {α : Type} [DecidableEq α] (l : List α) :
    (dedupFirst l).Pairwise (fun a b => firstIndexOf l a < firstIndexOf l b) :=
  pairwise_indexOf_dedupFirst l

/-- Inserting into a sorted list is a permutation of consing. -/
theorem insertSorted_perm (x : Nat) (l : List Nat) :
    (insertSorted x l).Perm (x :: l) := by
  induction l with
  | nil => exact List.Perm.refl _
  | cons y ys ih =>
    rw [insertSorted]
    by_cases h : x ≤ y
    · rw [if_pos h]
    · rw [if_neg h]
      exact (ih.cons y).trans (List.Perm.swap x y ys)

/-- `sortNat` permutes its input. -/
theorem sortNat_perm (l : List Nat) : (sortNat l).Perm l := by
  induction l with
  | nil => exact List.Perm.refl _
  | cons a l ih =>
    exact (insertSorted_perm a (sortNat l)).trans (ih.cons a)

/-- Sorted deduplicated keys are duplicate-free. -/
theorem nodup_sortNat_dedupFirst (l : List Nat) :
    (sortNat (dedupFirst l)).Nodup :=
  ((sortNat_perm (dedupFirst l)).nodup_iff).mpr (nodup_dedupFirst l)

/-- The first components of `enum`, shifted by one: the surrogate-key
column `range(1, n + 1)`. -/
theorem enum_map_fst_succ {α : Type} (l : List α) :
    l.enum.map (fun p => p.1 + 1) = List.range' 1 l.length := by
  have h1 : l.enum.map (fun p => p.1 + 1)
      = (l.enum.map Prod.fst).map (fun n => n + 1) := by
    rw [List.map_map]; rfl
  rw [h1, List.enum_map_fst, List.range'_eq_map_range]
  simp [Nat.add_comm]

/-- `randint lo hi r` lies in `[lo, hi]` for every outcome `r`. -/
theorem randint_bounds (lo hi r : Nat) (h : lo ≤ hi) :
    lo ≤ randint lo hi r ∧ randint lo hi r ≤ hi := by
  unfold randint
  have h2 : r % (hi + 1 - lo) < hi + 1 - lo := Nat.mod_lt _ (by omega)
  omega

/-- The severity score is always one of 1, 2, 3. -/
theorem severityScoreOf_bounds (s : Option String) :
    1 ≤ severityScoreOf s ∧ severityScoreOf s ≤ 3 := by
  unfold severityScoreOf
  split_ifs <;> omega

/-- Filtering the enumerated list by a property of the element alone is
empty exactly when filtering the plain list is. -/
theorem enumFrom_filter_loc_nil (loc : String) (conds : List RoadCondRow) :
    ∀ n, (List.enumFrom n conds).filter (fun p => p.2.location = some loc) = [] ↔
      conds.filter (fun c => c.location = some loc) = [] := by
  induction conds with
  | nil => intro n; simp
  | cons c cs ih =>
    intro n
    by_cases h : c.location = some loc
    · simp [List.enumFrom, List.filter_cons, h]
    · simp [List.enumFrom, List.filter_cons, h, ih (n + 1)]

/-- The `enum` specialisation of `enumFrom_filter_loc_nil`. -/
theorem enum_filter_loc_nil (loc : String) (conds : List RoadCondRow) :
    conds.enum.filter (fun p => p.2.location = some loc) = [] ↔
      conds.filter (fun c => c.location = some loc) = [] :=
  enumFrom_filter_loc_nil loc conds 0

/-- The matching block falls back to the random id exactly when no road
condition row has the accident's location. -/
theorem chooseRC_eq_fallback_iff (conds : List RoadCondRow) (loc : String) (t : Int) :
    chooseRC conds loc t = RCResult.fallback ↔
      conds.filter (fun c => c.location = some loc) = [] := by
  constructor
  · intro hfb
    simp only [chooseRC] at hfb
    by_cases h : conds.enum.filter (fun p => p.2.location = some loc) = []
    · exact (enum_filter_loc_nil loc conds).mp h
    · rw [if_neg h] at hfb
      split at hfb
      · cases hfb
      · split at hfb
        · cases hfb
        · cases hfb
  · intro hnil
    have h := (enum_filter_loc_nil loc conds).mpr hnil
    simp only [chooseRC]
    rw [if_pos h]

/-- Every emitted fact row originates from a grouped row with non-null
`ReportedAt` and `Location`; its key columns and measures are copied from
that grouped row, its `VehicleID` is a `randint(1, 200)` draw, and its
`RoadConditionID` is the matching block's pick, or a `randint(1, 100)` draw
on fallback. -/
theorem buildFactRows_mem (conds : List RoadCondRow) (gs : List GroupedRow)
    (σ : Nat → Nat) (facts : List FactRow)
    (h : buildFactRows σ conds gs = Except.ok facts) :
    ∀ f ∈ facts, ∃ g ∈ gs, ∃ t loc,
      g.reportedAt = some t ∧ g.location = some loc ∧
      f.accidentID = g.accidentID ∧ f.dateID = g.dateID ∧
      f.locationID = g.locationID ∧
      f.vehiclesInvolved = g.vehiclesInvolved ∧
      f.severityScore = severityScoreOf g.severity ∧
      1 ≤ f.vehicleID ∧ f.vehicleID ≤ 200 ∧
      (chooseRC conds loc t = RCResult.fallback →
        ∃ r, f.roadConditionID = some r ∧ 1 ≤ r ∧ r ≤ 100) ∧
      (∀ cid, chooseRC conds loc t = RCResult.picked cid → f.roadConditionID = cid) := by
  induction gs generalizing σ facts with
  | nil =>
    simp only [buildFactRows] at h
    injection h with h2
    subst h2
    intro f hf
    exact absurd hf (by simp)
  | cons g gs ih =>
    obtain ⟨gid, grep, gloc, gvi, gsev, gdid, glid⟩ := g
    cases grep with
    | none =>
      simp only [buildFactRows] at h
      intro f hf
      obtain ⟨g1, hg1, rest⟩ := ih σ facts h f hf
      exact ⟨g1, List.mem_cons_of_mem _ hg1, rest⟩
    | some t =>
      cases gloc with
      | none =>
        simp only [buildFactRows] at h
        intro f hf
        obtain ⟨g1, hg1, rest⟩ := ih σ facts h f hf
        exact ⟨g1, List.mem_cons_of_mem _ hg1, rest⟩
      | some loc =>
        simp only [buildFactRows] at h
        cases hC : chooseRC conds loc t with
        | picked cid =>
          rw [hC] at h
          cases hrec : buildFactRows (fun k => σ (k + 1)) conds gs with
          | error e => rw [hrec] at h; exact absurd h (by simp [Except.map])
          | ok rest =>
            rw [hrec] at h
            simp only [Except.map] at h
            injection h with h2
            subst h2
            intro f hf
            rcases List.mem_cons.mp hf with hfe | hfr
            · subst hfe
              refine ⟨⟨gid, some t, some loc, gvi, gsev, gdid, glid⟩,
                List.mem_cons_self _ _, t, loc, rfl, rfl, rfl, rfl, rfl, rfl, rfl,
                (randint_bounds 1 200 (σ 0) (by omega)).1,
                (randint_bounds 1 200 (σ 0) (by omega)).2, ?_, ?_⟩
              · intro hfb
                rw [hC] at hfb
                cases hfb
              · intro cid2 hp
                rw [hC] at hp
                exact RCResult.picked.inj hp
            · obtain ⟨g1, hg1, rest1⟩ := ih _ rest hrec f hfr
              exact ⟨g1, List.mem_cons_of_mem _ hg1, rest1⟩
        | fallback =>
          rw [hC] at h
          cases hrec : buildFactRows (fun k => σ (k + 2)) conds gs with
          | error e => rw [hrec] at h; exact absurd h (by simp [Except.map])
          | ok rest =>
            rw [hrec] at h
            simp only [Except.map] at h
            injection h with h2
            subst h2
            intro f hf
            rcases List.mem_cons.mp hf with hfe | hfr
            · subst hfe
              refine ⟨⟨gid, some t, some loc, gvi, gsev, gdid, glid⟩,
                List.mem_cons_self _ _, t, loc, rfl, rfl, rfl, rfl, rfl, rfl, rfl,
                (randint_bounds 1 200 (σ 0) (by omega)).1,
                (randint_bounds 1 200 (σ 0) (by omega)).2, ?_, ?_⟩
              · intro _
                exact ⟨randint 1 100 (σ 1), rfl,
                  (randint_bounds 1 100 (σ 1) (by omega)).1,
                  (randint_bounds 1 100 (σ 1) (by omega)).2⟩
              · intro cid2 hp
                rw [hC] at hp
                cases hp
            · obtain ⟨g1, hg1, rest1⟩ := ih _ rest hrec f hfr
              exact ⟨g1, List.mem_cons_of_mem _ hg1, rest1⟩
        | err e =>
          rw [hC] at h
          exact absurd h (by simp)

/-- The emitted `AccidentID` column is a sublist of the grouped keys. -/
theorem buildFactRows_ids_sublist (conds : List RoadCondRow) (gs : List GroupedRow)
    (σ : Nat → Nat) (facts : List FactRow)
    (h : buildFactRows σ conds gs = Except.ok facts) :
    (facts.map (fun f => f.accidentID)).Sublist (gs.map (fun g => g.accidentID)) := by
  induction gs generalizing σ facts with
  | nil =>
    simp only [buildFactRows] at h
    injection h with h2
    subst h2
    simp
  | cons g gs ih =>
    obtain ⟨gid, grep, gloc, gvi, gsev, gdid, glid⟩ := g
    cases grep with
    | none =>
      simp only [buildFactRows] at h
      exact List.Sublist.cons _ (ih σ facts h)
    | some t =>
      cases gloc with
      | none =>
        simp only [buildFactRows] at h
        exact List.Sublist.cons _ (ih σ facts h)
      | some loc =>
        simp only [buildFactRows] at h
        cases hC : chooseRC conds loc t with
        | picked cid =>
          rw [hC] at h
          cases hrec : buildFactRows (fun k => σ (k + 1)) conds gs with
          | error e => rw [hrec] at h; exact absurd h (by simp [Except.map])
          | ok rest =>
            rw [hrec] at h
            simp only [Except.map] at h
            injection h with h2
            subst h2
            exact List.Sublist.cons₂ _ (ih _ rest hrec)
        | fallback =>
          rw [hC] at h
          cases hrec : buildFactRows (fun k => σ (k + 2)) conds gs with
          | error e => rw [hrec] at h; exact absurd h (by simp [Except.map])
          | ok rest =>
            rw [hrec] at h
            simp only [Except.map] at h
            injection h with h2
            subst h2
            exact List.Sublist.cons₂ _ (ih _ rest hrec)
        | err e =>
          rw [hC] at h
          exact absurd h (by simp)

/-- The keys of the grouped frame are the sorted, deduplicated, non-null
`AccidentID` values. -/
theorem groupbyAccidentFirst_ids (rows : List MergedRow) :
    (groupbyAccidentFirst rows).map (fun g => g.accidentID) =
      sortNat (dedupFirst (rows.filterMap (fun r => r.accidentID))) := by
  unfold groupbyAccidentFirst
  rw [List.map_map]
  exact List.map_id _

/-- The `Severity` column a group aggregates is the first non-null
`Severity` among the original input rows with that `AccidentID`. -/
theorem groupFirst_enrich_severity (dimLoc : List DimLocationRow)
    (dimDate : List DimDateRow) (accs : List AccidentRow) (k : Nat) :
    (groupFirst (accs.map (enrich dimLoc dimDate)) k).severity =
      ((accs.filter (fun a => a.accidentID = some k)).filterMap
        (fun a => a.severity)).head? := by
  show ((((accs.map (enrich dimLoc dimDate)).filter
      (fun r => r.accidentID = some k)).filterMap (fun r => r.severity)).head?) = _
  rw [List.filter_map, List.filterMap_map]
  rfl

/-- The `VehiclesInvolved` column a group aggregates is the first non-null
`VehiclesInvolved` among the original input rows with that `AccidentID`. -/
theorem groupFirst_enrich_vehiclesInvolved (dimLoc : List DimLocationRow)
    (dimDate : List DimDateRow) (accs : List AccidentRow) (k : Nat) :
    (groupFirst (accs.map (enrich dimLoc dimDate)) k).vehiclesInvolved =
      ((accs.filter (fun a => a.accidentID = some k)).filterMap
        (fun a => a.vehiclesInvolved)).head? := by
  show ((((accs.map (enrich dimLoc dimDate)).filter
      (fun r => r.accidentID = some k)).filterMap (fun r => r.vehiclesInvolved)).head?) = _
  rw [List.filter_map, List.filterMap_map]
  rfl

/-! ### The claims -/

/-- Claim C1, counterexample to the claim as stated: two input rows share
`AccidentID` 1; the first occurrence has a null `Severity` (so its severity
score would be the default 1), yet the single emitted row has
`SeverityScore` 3, taken from the second occurrence — `groupby(...).first()`
aggregates each column to its first NON-NULL value, not to the first
occurrence's value. -/
theorem c1_counterexample :
    populate_fact_accidents dupAccs (populate_dim_location dupAccs)
      (populate_dim_date dupAccs) dupConds zeroStream =
      Except.ok [{ accidentID := 1, dateID := some 1, locationID := some 1,
                   vehicleID := 1, roadConditionID := some 7,
                   vehiclesInvolved := some 2, severityScore := 3 }] ∧
    (dupAccs.map (fun a => a.severity)).head? = some none ∧
    severityScoreOf none = 1 :=
  ⟨rfl, rfl, rfl⟩

/-- Claim C1 (amended): the fact table contains at most one row per
`AccidentID`, and each field of the row kept for an `AccidentID` is the
first NON-NULL value of that field among the input rows carrying that
`AccidentID`, in original input order (shown here for the two pass-through
fields `Severity` and `VehiclesInvolved`). -/
theorem c1_fact_dedup (accs : List AccidentRow) (dimLoc : List DimLocationRow)
    (dimDate : List DimDateRow) (conds : List RoadCondRow) (σ : Nat → Nat)
    (facts : List FactRow)
    (h : populate_fact_accidents accs dimLoc dimDate conds σ = Except.ok facts) :
    (facts.map (fun f => f.accidentID)).Nodup ∧
    ∀ f ∈ facts,
      f.severityScore = severityScoreOf
        (((accs.filter (fun a => a.accidentID = some f.accidentID)).filterMap
          (fun a => a.severity)).head?) ∧
      f.vehiclesInvolved =
        ((accs.filter (fun a => a.accidentID = some f.accidentID)).filterMap
          (fun a => a.vehiclesInvolved)).head? := by
  constructor
  · have hsub := buildFactRows_ids_sublist conds _ σ facts h
    rw [groupbyAccidentFirst_ids] at hsub
    exact List.Nodup.sublist hsub (nodup_sortNat_dedupFirst _)
  · intro f hf
    obtain ⟨g, hg, t, loc, _, _, hacc, _, _, hvi, hsev, _⟩ :=
      buildFactRows_mem conds _ σ facts h f hf
    obtain ⟨k, _, rfl⟩ := List.mem_map.mp hg
    have hk : (groupFirst (accs.map (enrich dimLoc dimDate)) k).accidentID = k := rfl
    rw [hsev, hvi, hacc, hk, groupFirst_enrich_severity,
      groupFirst_enrich_vehiclesInvolved]
    exact ⟨rfl, rfl⟩

/-- Claim C1 witness: the amended claim instantiated on a concrete batch. -/
theorem c1_witness :
    (([wFact].map (fun f => f.accidentID)).Nodup) ∧
    wFact.severityScore = severityScoreOf
      (((wAccs.filter (fun a => a.accidentID = some wFact.accidentID)).filterMap
        (fun a => a.severity)).head?) ∧
    wFact.vehiclesInvolved =
      ((wAccs.filter (fun a => a.accidentID = some wFact.accidentID)).filterMap
        (fun a => a.vehiclesInvolved)).head? := by
  have h := c1_fact_dedup wAccs (populate_dim_location wAccs)
    (populate_dim_date wAccs) [] zeroStream [wFact] rfl
  exact ⟨h.1, (h.2 wFact (by decide)).1, (h.2 wFact (by decide)).2⟩

/-- Claim C2: the matching block does NOT select the minimal
|RecordedAt − ReportedAt| record.  On `bugConds` at location "B", minute 5,
the minimal-difference record is `ConditionID` 20 (difference 0, per the
spec-side `spec_nearest_condition`), but the code returns `ConditionID` 30:
`idxmin` yields a label of the original frame (2) which `iloc` then uses as
a position in the filtered frame.  On `crashConds` the same confusion makes
`iloc` raise `IndexError`. -/
theorem c2_nearest_match_bug :
    chooseRC bugConds "B" 5 = RCResult.picked (some 30) ∧
    spec_nearest_condition bugConds "B" 5 = some (some 20) ∧
    RCResult.picked (some (30 : Nat)) ≠ RCResult.picked (some (20 : Nat)) ∧
    chooseRC crashConds "B" 100 = RCResult.err ETLError.indexError :=
  ⟨rfl, rfl, by decide, rfl⟩

/-- Claim C3, counterexample to the claim as stated: the batch `wAccs` has
its single `ReportedAt` at minute 630 (10:30), yet the `Time` column of the
resulting `Dim_Date` row is minute 0 (midnight): `pd.to_datetime` is
applied to the deduplicated DATE values, so the time of day is lost. -/
theorem c3_counterexample :
    (populate_dim_date wAccs).map (fun r => r.time) = [some 0] ∧
    wAccs.map (fun a => a.reportedAt) = [some 630] ∧
    some (0 : Int) ≠ some (630 : Int) :=
  ⟨rfl, rfl, by decide⟩

/-- Claim C3 (amended): in every `Dim_Date` row the `Time` field is the
row's calendar date converted back to a timestamp, i.e. midnight of that
date — the time-of-day of the first-observed `ReportedAt` is not kept. -/
theorem c3_time_is_midnight (accs : List AccidentRow) (r : DimDateRow)
    (hr : r ∈ populate_dim_date accs) :
    r.time = r.date.map midnightTs := by
  simp only [populate_dim_date] at hr
  obtain ⟨p, _, rfl⟩ := List.mem_map.mp hr
  rfl

/-- Claim C3 witness: the amended claim at the concrete `Dim_Date` row of
`wAccs`. -/
theorem c3_witness : wDateRow.time = wDateRow.date.map midnightTs :=
  c3_time_is_midnight wAccs wDateRow (by decide)

/-- Claim C4: the location dimension's `LocationID` column is the
contiguous range `1..n` for `n` the number of distinct `Location` values,
and its `LocationName` column is exactly the distinct input `Location`
values (no duplicates, same membership as the input column) in order of
first appearance (first-occurrence indices strictly increase). -/
theorem c4_dim_location (accs : List AccidentRow) :
    (populate_dim_location accs).map (fun r => r.locationID) =
      List.range' 1 (dedupFirst (accs.map (fun a => a.location))).length ∧
    (populate_dim_location accs).map (fun r => r.locationName) =
      dedupFirst (accs.map (fun a => a.location)) ∧
    ((populate_dim_location accs).map (fun r => r.locationName)).Nodup ∧
    (∀ x, x ∈ (populate_dim_location accs).map (fun r => r.locationName) ↔
      x ∈ accs.map (fun a => a.location)) ∧
    ((populate_dim_location accs).map (fun r => r.locationName)).Pairwise
      (fun a b => firstIndexOf (accs.map (fun x => x.location)) a <
        firstIndexOf (accs.map (fun x => x.location)) b) := by
  have hname : (populate_dim_location accs).map (fun r => r.locationName) =
      dedupFirst (accs.map (fun a => a.location)) := by
    unfold populate_dim_location
    rw [List.map_map]
    exact List.enum_map_snd _
  refine ⟨?_, hname, ?_, ?_, ?_⟩
  · unfold populate_dim_location
    rw [List.map_map]
    exact enum_map_fst_succ _
  · rw [hname]; exact nodup_dedupFirst _
  · intro x; rw [hname]; exact mem_dedupFirst x _
  · rw [hname]; exact pairwise_firstIndexOf_dedupFirst _

/-- Claim C5: the date dimension has exactly one row per distinct calendar
date of the `ReportedAt` values (no duplicates, same membership), in
first-appearance order, with `DateID` the contiguous range `1..n`, and in
every row `Month` and `Year` are the month and year of the row's own
`Date` field. -/
theorem c5_dim_date (accs : List AccidentRow) :
    (populate_dim_date accs).map (fun r => r.date) =
      dedupFirst (accs.map (fun a => a.reportedAt.map dateOfTs)) ∧
    ((populate_dim_date accs).map (fun r => r.date)).Nodup ∧
    (∀ d, d ∈ (populate_dim_date accs).map (fun r => r.date) ↔
      d ∈ accs.map (fun a => a.reportedAt.map dateOfTs)) ∧
    ((populate_dim_date accs).map (fun r => r.date)).Pairwise
      (fun a b => firstIndexOf (accs.map (fun x => x.reportedAt.map dateOfTs)) a <
        firstIndexOf (accs.map (fun x => x.reportedAt.map dateOfTs)) b) ∧
    (populate_dim_date accs).map (fun r => r.dateID) =
      List.range' 1 (dedupFirst (accs.map (fun a => a.reportedAt.map dateOfTs))).length ∧
    ∀ r ∈ populate_dim_date accs,
      r.month = r.date.map monthOfDay ∧ r.year = r.date.map yearOfDay := by
  have hdate : (populate_dim_date accs).map (fun r => r.date) =
      dedupFirst (accs.map (fun a => a.reportedAt.map dateOfTs)) := by
    unfold populate_dim_date
    rw [List.map_map]
    exact List.enum_map_snd _
  refine ⟨hdate, ?_, ?_, ?_, ?_, ?_⟩
  · rw [hdate]; exact nodup_dedupFirst _
  · intro d; rw [hdate]; exact mem_dedupFirst d _
  · rw [hdate]
    exact pairwise_firstIndexOf_dedupFirst
      (accs.map (fun x => x.reportedAt.map dateOfTs))
  · unfold populate_dim_date
    rw [List.map_map]
    exact enum_map_fst_succ _
  · intro r hr
    simp only [populate_dim_date] at hr
    obtain ⟨p, _, rfl⟩ := List.mem_map.mp hr
    exact ⟨rfl, rfl⟩

/-- Claim C5 witness: the per-row part at the concrete `Dim_Date` row of
`wAccs`. -/
theorem c5_witness :
    wDateRow.month = wDateRow.date.map monthOfDay ∧
    wDateRow.year = wDateRow.date.map yearOfDay :=
  (c5_dim_date wAccs).2.2.2.2.2 wDateRow (by decide)

/-- Claim C6: for every outcome stream of the random source, every emitted
fact row's `VehicleID` is in [1, 200], and each row comes from a grouped
accident whose location, when it matches no road-condition record, forces
the emitted `RoadConditionID` to be a random fallback in [1, 100]. -/
theorem c6_random_ranges (accs : List AccidentRow) (dimLoc : List DimLocationRow)
    (dimDate : List DimDateRow) (conds : List RoadCondRow) (σ : Nat → Nat)
    (facts : List FactRow)
    (h : populate_fact_accidents accs dimLoc dimDate conds σ = Except.ok facts) :
    ∀ f ∈ facts,
      (1 ≤ f.vehicleID ∧ f.vehicleID ≤ 200) ∧
      ∃ g ∈ groupbyAccidentFirst (accs.map (enrich dimLoc dimDate)), ∃ loc,
        g.location = some loc ∧ f.accidentID = g.accidentID ∧
        (conds.filter (fun c => c.location = some loc) = [] →
          ∃ r, f.roadConditionID = some r ∧ 1 ≤ r ∧ r ≤ 100) := by
  intro f hf
  obtain ⟨g, hg, t, loc, _, hloc, hacc, _, _, _, _, hv1, hv2, hfb, _⟩ :=
    buildFactRows_mem conds _ σ facts h f hf
  refine ⟨⟨hv1, hv2⟩, g, hg, loc, hloc, hacc, ?_⟩
  intro hnil
  exact hfb ((chooseRC_eq_fallback_iff conds loc t).mpr hnil)

/-- Claim C6 witness: the concrete batch `wAccs` with no road conditions
under the all-zero stream. -/
theorem c6_witness :
    (1 ≤ wFact.vehicleID ∧ wFact.vehicleID ≤ 200) ∧
    ∃ g ∈ groupbyAccidentFirst (wAccs.map
        (enrich (populate_dim_location wAccs) (populate_dim_date wAccs))),
      ∃ loc, g.location = some loc ∧ wFact.accidentID = g.accidentID ∧
        (([] : List RoadCondRow).filter (fun c => c.location = some loc) = [] →
          ∃ r, wFact.roadConditionID = some r ∧ 1 ≤ r ∧ r ≤ 100) :=
  c6_random_ranges wAccs (populate_dim_location wAccs) (populate_dim_date wAccs)
    [] zeroStream [wFact] rfl wFact (by decide)

/-- Claim C7: the severity mapping sends Minor, Moderate, Severe to 1, 2, 3,
anything else (missing included) to the default 1 without error, so every
emitted `SeverityScore` lies in [1, 3]. -/
theorem c7_severity_map :
    severityScoreOf (some "Minor") = 1 ∧
    severityScoreOf (some "Moderate") = 2 ∧
    severityScoreOf (some "Severe") = 3 ∧
    severityScoreOf none = 1 ∧
    (∀ s : Option String, s ≠ some "Minor" → s ≠ some "Moderate" →
      s ≠ some "Severe" → severityScoreOf s = 1) ∧
    ∀ (accs : List AccidentRow) (dimLoc : List DimLocationRow)
      (dimDate : List DimDateRow) (conds : List RoadCondRow) (σ : Nat → Nat)
      (facts : List FactRow),
      populate_fact_accidents accs dimLoc dimDate conds σ = Except.ok facts →
      ∀ f ∈ facts, 1 ≤ f.severityScore ∧ f.severityScore ≤ 3 := by
  refine ⟨rfl, rfl, rfl, rfl, ?_, ?_⟩
  · intro s h1 h2 h3
    simp [severityScoreOf, h1, h2, h3]
  · intro accs dimLoc dimDate conds σ facts h f hf
    obtain ⟨g, _, _, _, _, _, _, _, _, _, hsev, _⟩ :=
      buildFactRows_mem conds _ σ facts h f hf
    rw [hsev]
    exact severityScoreOf_bounds g.severity

/-- Claim C7 witness: the default case and the emitted range on the
concrete batch. -/
theorem c7_witness :
    severityScoreOf (some "Fatal") = 1 ∧
    (1 ≤ wFact.severityScore ∧ wFact.severityScore ≤ 3) :=
  ⟨c7_severity_map.2.2.2.2.1 (some "Fatal") (by decide) (by decide) (by decide),
   c7_severity_map.2.2.2.2.2 wAccs (populate_dim_location wAccs)
     (populate_dim_date wAccs) [] zeroStream [wFact] rfl wFact (by decide)⟩

/-- Claim C8, counterexample to the claim as stated: on the empty batch the
location builder does not fail — in particular it does not raise an
`EmptyInputError`. -/
theorem c8_counterexample :
    populate_dim_location_run [] ≠ Except.error ETLError.emptyInput := by
  intro h
  exact Except.noConfusion h

/-- Claim C8 (amended): on the empty accident batch the location-dimension
builder returns normally, producing the empty table (there is no emptiness
check in the code). -/
theorem c8_empty_returns_empty :
    populate_dim_location_run [] = Except.ok [] :=
  rfl

/-- Claim C9: the four dimension builders read nothing from the random
source, so two runs on identical input batches — whatever each run's
random outcomes are — produce identical dimension tables, surrogate-id
assignment included. -/
theorem c9_dims_deterministic (vehicles : List VehicleRow)
    (accs : List AccidentRow) (conds : List RoadCondRow) (σ₁ σ₂ : Nat → Nat) :
    (run_etl vehicles accs conds σ₁).dimLocation =
      (run_etl vehicles accs conds σ₂).dimLocation ∧
    (run_etl vehicles accs conds σ₁).dimVehicle =
      (run_etl vehicles accs conds σ₂).dimVehicle ∧
    (run_etl vehicles accs conds σ₁).dimRoadCondition =
      (run_etl vehicles accs conds σ₂).dimRoadCondition ∧
    (run_etl vehicles accs conds σ₁).dimDate =
      (run_etl vehicles accs conds σ₂).dimDate :=
  ⟨rfl, rfl, rfl, rfl⟩

/-- Claim C10: timestamp normalization never raises — it returns normally
on every column, mapping each unparseable or missing cell to null and each
parseable cell to its timestamp — and every fact row the builder emits
comes from a grouped accident whose `ReportedAt` is non-null (null ones are
skipped, they do not abort the run). -/
theorem c10_coerce_and_skip :
    (∀ col, convert_timestamps col = Except.ok (col.map to_datetime_coerce)) ∧
    to_datetime_coerce RawCell.invalid = none ∧
    (∀ t, to_datetime_coerce (RawCell.valid t) = some t) ∧
    ∀ (accs : List AccidentRow) (dimLoc : List DimLocationRow)
      (dimDate : List DimDateRow) (conds : List RoadCondRow) (σ : Nat → Nat)
      (facts : List FactRow),
      populate_fact_accidents accs dimLoc dimDate conds σ = Except.ok facts →
      ∀ f ∈ facts, ∃ g ∈ groupbyAccidentFirst (accs.map (enrich dimLoc dimDate)),
        f.accidentID = g.accidentID ∧ g.reportedAt ≠ none := by
  refine ⟨fun _ => rfl, rfl, fun _ => rfl, ?_⟩
  intro accs dimLoc dimDate conds σ facts h f hf
  obtain ⟨g, hg, t, loc, hrep, _, hacc, _⟩ :=
    buildFactRows_mem conds _ σ facts h f hf
  refine ⟨g, hg, hacc, ?_⟩
  rw [hrep]
  exact fun hc => Option.noConfusion hc

/-- Claim C10 witness: the skip clause at the concrete batch. -/
theorem c10_witness :
    ∃ g ∈ groupbyAccidentFirst (wAccs.map
        (enrich (populate_dim_location wAccs) (populate_dim_date wAccs))),
      wFact.accidentID = g.accidentID ∧ g.reportedAt ≠ none :=
  c10_coerce_and_skip.2.2.2 wAccs (populate_dim_location wAccs)
    (populate_dim_date wAccs) [] zeroStream [wFact] rfl wFact (by decide)

end ETL

